import Mathlib

/-!
Verification of the ski-game core against its natural-language specification.

The embedding covers the two source files of the repository:
* the `Game` orchestrator class (game loop, pause/resume, score, key dispatch,
  draw order), and
* the `Obstacle` entity (weighted random typing, no-op `die`).

The `Skier`, `Rhino` and `ObstacleManager` classes are not part of the given
sources; where a claim needs their behavior it is modelled from the spec, and
otherwise their effect on the game state is kept abstract (fields of `Env`).

JavaScript numbers are modelled as rationals (`ℚ`); the score, which only ever
receives integer increments, as `ℤ`.
-/

namespace SkiGame

/-- Image asset names from the constants module that the obstacle catalog uses
(referenced as `IMAGE_NAMES.TREE` etc. in `Obstacle.ts`). -/
inductive IMAGE_NAMES where
  | TREE
  | TREE_CLUSTER
  | ROCK1
  | ROCK2
  | JUMP_RAMP
deriving DecidableEq

/-- The `iObstacleType` interface: an image name together with a spawn weight. -/
structure iObstacleType where
  imageName : IMAGE_NAMES
  weight : ℚ
deriving DecidableEq

/-- The obstacle catalog `OBSTACLE_TYPES` from `Obstacle.ts`, in its fixed
source order with its literal weights. -/
def OBSTACLE_TYPES : List iObstacleType :=
  [ { imageName := IMAGE_NAMES.TREE, weight := 30 },
    { imageName := IMAGE_NAMES.TREE_CLUSTER, weight := 30 },
    { imageName := IMAGE_NAMES.ROCK1, weight := 20 },
    { imageName := IMAGE_NAMES.ROCK2, weight := 10 },
    { imageName := IMAGE_NAMES.JUMP_RAMP, weight := 10 } ]

/-- The total catalog weight computed by `getRandomObstacleType`'s `map` pass
(the side-effecting accumulation of `totalWeight` over the catalog). -/
def totalWeight : ℚ := (OBSTACLE_TYPES.map (fun t => t.weight)).sum

/-- The `for` loop of `getRandomObstacleType`: walk the weights from index `i`,
returning `some` of the first index whose weight bucket contains the remaining
random value, else `none` when the list is exhausted. -/
def selectLoop : ℚ → List ℚ → Nat → Option Nat
  | _, [], _ => none
  | r, w :: ws, i => if r < w then some i else selectLoop (r - w) ws (i + 1)

/-- `Obstacle.getRandomObstacleType`, with the result of
`Math.random() * totalWeight` passed in as the draw value `r`.  The loop walks
the catalog weights; the fallback after the loop returns the last catalog
index. -/
def getRandomObstacleType (r : ℚ) : Nat :=
  match selectLoop r (OBSTACLE_TYPES.map (fun t => t.weight)) 0 with
  | some i => i
  | none => OBSTACLE_TYPES.length - 1

/-- The `Obstacle` entity: a position inherited from `Entity`, the chosen
`imageName`, and the `weight` field (initialized to `0` and never reassigned by
the constructor). -/
structure Obstacle where
  x : ℚ
  y : ℚ
  imageName : IMAGE_NAMES
  weight : ℚ
deriving DecidableEq

/-- The `Obstacle` constructor: pick a random type index and look up its image
name in the catalog.  The JavaScript indexing `OBSTACLE_TYPES[typeIdx]` is
modelled as an optional lookup, so an out-of-bounds index would surface as
`none`. -/
def mkObstacle (x y r : ℚ) : Option Obstacle :=
  (OBSTACLE_TYPES[getRandomObstacleType r]?).map
    (fun t => { x := x, y := y, imageName := t.imageName, weight := 0 })

/-- `Obstacle.die` has an empty body: it changes nothing. -/
def Obstacle.die (o : Obstacle) : Obstacle := o

/-- The skier states of the `STATES` enumeration (`SKIING`, `JUMPING`,
`CRASHED`, `DEAD`, `FLIPPING`), as imported and matched on by `Game`. -/
inductive SkierState where
  | SKIING
  | JUMPING
  | CRASHED
  | DEAD
  | FLIPPING
deriving DecidableEq

/-- The skier directions from the spec data model:
`{LEFT, LEFT_DOWN, DOWN, RIGHT_DOWN, RIGHT}`. -/
inductive Direction where
  | LEFT
  | LEFT_DOWN
  | DOWN
  | RIGHT_DOWN
  | RIGHT
deriving DecidableEq

/-- The `Position` value type: world coordinates. -/
structure Position where
  x : ℚ
  y : ℚ
deriving DecidableEq

/-- The `Rect` value type, used for the game window and bounding boxes. -/
structure Rect where
  left : ℚ
  top : ℚ
  right : ℚ
  bottom : ℚ
deriving DecidableEq

/-- Modelled from the spec: the observable state of the `Skier` entity
(`Skier.ts` is not among the given sources) — a position, a direction, and a
state from the `STATES` enumeration.  The jump-animation frame counter is
omitted: no claim depends on it. -/
structure Skier where
  position : Position
  direction : Direction
  state : SkierState
deriving DecidableEq

/-- Modelled from the spec: the observable state of the `Rhino` entity
(`Rhino.ts` is not among the given sources) — a position, a pursuit state, and
an animation-frame counter. -/
inductive RhinoState where
  | RUNNING
  | EATING
  | CELEBRATING
deriving DecidableEq

/-- Modelled from the spec: the `Rhino` entity's fields. -/
structure Rhino where
  position : Position
  state : RhinoState
  animationFrame : Nat
deriving DecidableEq

/-- The key identifiers the dispatcher distinguishes: the pause keys `KEYS.P`
and `KEYS.ESC`, and the remaining keys the skier may consume. -/
inductive Key where
  | P
  | ESC
  | LEFT
  | RIGHT
  | UP
  | DOWN
  | SPACE
deriving DecidableEq

/-- The collaborators of the `Game` class whose code is outside the given
sources, kept abstract: the constant canvas dimensions, the skier's
per-direction velocity table, the skier's input handler (returns the possibly
changed skier and the consumed flag, per the spec contract
`handleInput(key) → handled`), the skier's collision query against the
obstacle set, `Rhino.update`, and `ObstacleManager.placeNewObstacle`.
Every theorem below quantifies over these, so nothing is assumed about
them. -/
structure Env where
  GAME_WIDTH : ℚ
  GAME_HEIGHT : ℚ
  vel : Direction → ℚ × ℚ
  skierHandleInput : Key → Skier → Skier × Bool
  skierCollide : Skier → List Obstacle → Bool
  rhinoUpdate : ℚ → Skier → Rhino → Rhino
  placeNewObstacle : Rect → Rect → List Obstacle → List Obstacle

/-- Modelled from the spec: `Skier.update` — when the state is one of
`SKIING`, `JUMPING`, `FLIPPING` the position advances by the fixed velocity
vector of the current direction, after which the collision query may take a
`SKIING` skier to `CRASHED`.  `CRASHED` and `DEAD` contribute zero
velocity. -/
def Skier.update (env : Env) (obstacles : List Obstacle) (s : Skier) : Skier :=
  let moved :=
    if s.state = SkierState.SKIING ∨ s.state = SkierState.JUMPING ∨
        s.state = SkierState.FLIPPING then
      { s with position :=
          { x := s.position.x + (env.vel s.direction).1,
            y := s.position.y + (env.vel s.direction).2 } }
    else s
  if moved.state = SkierState.SKIING ∧ env.skierCollide moved obstacles then
    { moved with state := SkierState.CRASHED }
  else moved

/-- The mutable fields of the `Game` class that the claims concern. -/
structure GameState where
  gameWindow : Rect
  gameTime : ℚ
  paused : Bool
  score : ℤ
  skier : Skier
  rhino : Rhino
  obstacles : List Obstacle
deriving DecidableEq

/-- `Game.calculateGameWindow`: recenter the game window on the skier. -/
def calculateGameWindow (env : Env) (g : GameState) : GameState :=
  let p := g.skier.position
  let left := p.x - env.GAME_WIDTH / 2
  let top := p.y - env.GAME_HEIGHT / 2
  { g with gameWindow :=
      { left := left, top := top,
        right := left + env.GAME_WIDTH, bottom := top + env.GAME_HEIGHT } }

/-- `Game.updateGameScore`: switch on the skier state; `SKIING` adds 1,
`JUMPING` adds 10, `FLIPPING` adds 100, every other state falls to the
`default` branch and adds nothing. -/
def updateGameScore (g : GameState) : GameState :=
  match g.skier.state with
  | SkierState.SKIING => { g with score := g.score + 1 }
  | SkierState.JUMPING => { g with score := g.score + 10 }
  | SkierState.FLIPPING => { g with score := g.score + 100 }
  | _ => g

/-- `Game.updateGameWindow` (`now` stands for the `Date.now()` read): when
paused, return immediately; otherwise set the game time, update the score,
recompute the game window, place new obstacles against the previous window,
update the skier, then the rhino. -/
def updateGameWindow (env : Env) (now : ℚ) (g : GameState) : GameState :=
  if g.paused then g
  else
    let g1 := { g with gameTime := now }
    let g2 := updateGameScore g1
    let previousGameWindow := g2.gameWindow
    let g3 := calculateGameWindow env g2
    let g4 := { g3 with obstacles :=
        env.placeNewObstacle g3.gameWindow previousGameWindow g3.obstacles }
    let g5 := { g4 with skier := Skier.update env g4.obstacles g4.skier }
    { g5 with rhino := env.rhinoUpdate g5.gameTime g5.skier g5.rhino }

/-- `Game.pause`: only takes effect while the skier is `SKIING`. -/
def pause (g : GameState) : GameState :=
  if g.skier.state = SkierState.SKIING then { g with paused := true } else g

/-- `Game.resume`: unconditionally clears the paused flag. -/
def resume (g : GameState) : GameState := { g with paused := false }

/-- `Game.handleKeyDown`.  The source first asks the skier to handle the key,
then runs a `switch` in which the `P`/`ESC` case toggles pause and — lacking a
`break` — falls through into the `default` clause, which every key also
reaches, so `handled` is reassigned to `false` on every control path before
the final `if (handled) event.preventDefault()`.  The returned boolean is
whether `preventDefault` was called. -/
def handleKeyDown (env : Env) (key : Key) (g : GameState) : GameState × Bool :=
  let ir := env.skierHandleInput key g.skier
  let g1 := { g with skier := ir.1 }
  let handled := ir.2
  let g2 :=
    if key = Key.P ∨ key = Key.ESC then
      (if g1.paused then resume g1 else pause g1)
    else g1
  let handled := false
  (g2, handled)

/-- The draw calls the `Game` draw phase issues, in order.  Each entity's own
drawing is one opaque call; overlays carry the values they render. -/
inductive DrawCall where
  | setDrawOffset (x y : ℚ)
  | skierDraw
  | rhinoDraw
  | obstaclesDraw
  | scoreDraw (score : ℤ)
  | menuMessage (message : String) (menuOpacity : ℚ)
deriving DecidableEq

/-- `Game.drawScore`: render the current score overlay. -/
def drawScore (g : GameState) : List DrawCall :=
  [DrawCall.scoreDraw g.score]

/-- `Game.drawMenuMessages`: the paused overlay at the default opacity 0.5
when paused, the crashed overlay at opacity 0.2, the game-over overlay at
opacity 0.5. -/
def drawMenuMessages (g : GameState) : List DrawCall :=
  (if g.paused then
    [DrawCall.menuMessage
      ("Game paused! Your score is " ++ toString g.score ++ "!") (1 / 2)]
  else []) ++
  (if g.skier.state = SkierState.CRASHED then
    [DrawCall.menuMessage
      "You crashed! You can keep moving. Be aware of the obstacles!" (1 / 5)]
  else []) ++
  (if g.skier.state = SkierState.DEAD then
    [DrawCall.menuMessage
      ("Game over! Your score was " ++ toString g.score ++ "!") (1 / 2)]
  else [])

/-- `Game.drawGameWindow`: set the draw offset, then draw the skier, the
rhino, the obstacles, and finally the overlays (score, then menu
messages). -/
def drawGameWindow (g : GameState) : List DrawCall :=
  DrawCall.setDrawOffset g.gameWindow.left g.gameWindow.top ::
  DrawCall.skierDraw ::
  DrawCall.rhinoDraw ::
  DrawCall.obstaclesDraw ::
  (drawScore g ++ drawMenuMessages g)

/-- One iteration of `Game.run` (after `clearCanvas`): the update phase
followed by the draw phase on the updated state. -/
def runTick (env : Env) (now : ℚ) (g : GameState) : GameState × List DrawCall :=
  let g1 := updateGameWindow env now g
  (g1, drawGameWindow g1)

/-- The `Game` constructor: `init()` places the skier at `(0, 0)` and the
rhino at `(-500, -2000)` and computes the initial game window, then the
constructor body sets `paused` to `false` and `score` to `0`.  The skier's
initial direction and state and the rhino's initial state come from the spec
(the entity sources are not given); the initial obstacle scatter is passed in
for `placeInitialObstacles`. -/
def initialGameState (env : Env) (startTime : ℚ)
    (initialObstacles : List Obstacle) : GameState :=
  let skier : Skier :=
    { position := { x := 0, y := 0 },
      direction := Direction.DOWN, state := SkierState.SKIING }
  let rhino : Rhino :=
    { position := { x := -500, y := -2000 },
      state := RhinoState.RUNNING, animationFrame := 0 }
  let base : GameState :=
    { gameWindow := { left := 0, top := 0, right := 0, bottom := 0 },
      gameTime := startTime, paused := false, score := 0,
      skier := skier, rhino := rhino, obstacles := initialObstacles }
  calculateGameWindow env base

/-- A concrete environment used to instantiate the quantified theorems on
closed inputs: the skier consumes every key, no collision ever fires, the
rhino and the obstacle placement are inert. -/
def sampleEnv : Env :=
  { GAME_WIDTH := 700, GAME_HEIGHT := 800,
    vel := fun _ => (0, 4),
    skierHandleInput := fun _ sk => (sk, true),
    skierCollide := fun _ _ => false,
    rhinoUpdate := fun _ _ r => r,
    placeNewObstacle := fun _ _ os => os }

/-- A concrete game state: unpaused, score 0, skier skiing down at the
origin. -/
def sampleState : GameState :=
  { gameWindow := { left := -350, top := -400, right := 350, bottom := 400 },
    gameTime := 0, paused := false, score := 0,
    skier := { position := { x := 0, y := 0 },
               direction := Direction.DOWN, state := SkierState.SKIING },
    rhino := { position := { x := -500, y := -2000 },
               state := RhinoState.RUNNING, animationFrame := 0 },
    obstacles := [] }

/-- `sampleState` with the paused flag set. -/
def pausedSample : GameState := { sampleState with paused := true }

/-- `sampleState` with a crashed skier. -/
def crashedSample : GameState :=
  { sampleState with skier := { sampleState.skier with state := SkierState.CRASHED } }

/-- `sampleState` with a dead skier. -/
def deadSample : GameState :=
  { sampleState with skier := { sampleState.skier with state := SkierState.DEAD } }

/-- C7: `Obstacle.die` is a no-op — it leaves every field of the obstacle
unchanged and performs no effect. -/
theorem obstacle_die_noop : ∀ o : Obstacle, Obstacle.die o = o := by
  intro o
  rfl

/-- C6: `drawGameWindow` issues its draw calls in the fixed order: the draw
offset, then the skier, then the rhino, then the obstacles, then the overlays
(score, then menu messages) last. -/
theorem drawGameWindow_order : ∀ g : GameState,
    drawGameWindow g =
      DrawCall.setDrawOffset g.gameWindow.left g.gameWindow.top ::
      DrawCall.skierDraw ::
      DrawCall.rhinoDraw ::
      DrawCall.obstaclesDraw ::
      DrawCall.scoreDraw g.score ::
      drawMenuMessages g := by
  intro g
  rfl

/-- C5: when the skier is `CRASHED` or `DEAD`, `updateGameScore` leaves the
score unchanged, and so does a whole unpaused tick. -/
theorem updateGameScore_crashed_dead (env : Env) (now : ℚ) (g : GameState)
    (h : g.skier.state = SkierState.CRASHED ∨ g.skier.state = SkierState.DEAD) :
    (updateGameScore g).score = g.score ∧
    (g.paused = false → (updateGameWindow env now g).score = g.score) := by
  have hsc : (updateGameScore g).score = g.score := by
    rcases h with h | h <;> simp [updateGameScore, h]
  refine ⟨hsc, fun hp => ?_⟩
  rcases h with h | h <;>
    simp [updateGameWindow, hp, updateGameScore, calculateGameWindow, h]

/-- C5 witness: an unpaused tick on the concrete crashed state leaves the
score at its value 0. -/
theorem updateGameScore_crashed_dead_witness :
    (updateGameScore crashedSample).score = crashedSample.score ∧
    (crashedSample.paused = false →
      (updateGameWindow sampleEnv 0 crashedSample).score = crashedSample.score) :=
  updateGameScore_crashed_dead sampleEnv 0 crashedSample (Or.inl rfl)

/-- C10: the score starts at 0; `updateGameScore` adds exactly 1 when
`SKIING`, 10 when `JUMPING`, 100 when `FLIPPING` and 0 otherwise, hence never
decreases; and no other operation of the `Game` class — the tick other than
its `updateGameScore` call, the key dispatcher, `pause`, `resume` — changes
the score. -/
theorem score_invariant :
    (∀ env startTime obs, (initialGameState env startTime obs).score = 0) ∧
    (∀ g : GameState, (updateGameScore g).score = g.score +
      (match g.skier.state with
       | SkierState.SKIING => 1
       | SkierState.JUMPING => 10
       | SkierState.FLIPPING => 100
       | _ => 0)) ∧
    (∀ g : GameState, g.score ≤ (updateGameScore g).score) ∧
    (∀ env now g, (updateGameWindow env now g).score =
      if g.paused then g.score else (updateGameScore g).score) ∧
    (∀ env key g, ((handleKeyDown env key g).1.score = g.score)) ∧
    (∀ g : GameState, (pause g).score = g.score ∧ (resume g).score = g.score) := by
  refine ⟨?_, ?_, ?_, ?_, ?_, ?_⟩
  · intro env startTime obs
    rfl
  · intro g
    cases h : g.skier.state <;> simp [updateGameScore, h]
  · intro g
    cases h : g.skier.state <;> simp [updateGameScore, h]
  · intro env now g
    cases hp : g.paused
    · simp only [updateGameWindow, hp, Bool.false_eq_true, if_false, if_neg]
      cases h : g.skier.state <;>
        simp [updateGameScore, calculateGameWindow, h]
    · simp [updateGameWindow, hp]
  · intro env key g
    simp only [handleKeyDown, pause, resume]
    by_cases hk : key = Key.P ∨ key = Key.ESC <;> simp only [hk, if_true, if_false] <;>
      by_cases hp : g.paused = true <;> simp only [hp] <;>
      by_cases hs : (env.skierHandleInput key g.skier).1.state = SkierState.SKIING <;>
      simp [hs]
  · intro g
    constructor
    · by_cases h : g.skier.state = SkierState.SKIING <;> simp [pause, h]
    · rfl

/-- C3: when the game is paused, the update phase `updateGameWindow` leaves
the whole game state unchanged, while a frame still runs the draw phase,
which renders the paused-overlay menu message. -/
theorem paused_tick (env : Env) (now : ℚ) (g : GameState)
    (h : g.paused = true) :
    updateGameWindow env now g = g ∧
    runTick env now g = (g, drawGameWindow g) ∧
    DrawCall.menuMessage
        ("Game paused! Your score is " ++ toString g.score ++ "!") (1 / 2)
      ∈ (runTick env now g).2 := by
  have hu : updateGameWindow env now g = g := by simp [updateGameWindow, h]
  refine ⟨hu, by simp [runTick, hu], ?_⟩
  simp [runTick, hu, drawGameWindow, drawScore, drawMenuMessages, h]

/-- C3 witness: on the concrete paused state, the update phase is the
identity and the paused overlay is among the frame's draw calls. -/
theorem paused_tick_witness :
    updateGameWindow sampleEnv 0 pausedSample = pausedSample ∧
    runTick sampleEnv 0 pausedSample = (pausedSample, drawGameWindow pausedSample) ∧
    DrawCall.menuMessage
        ("Game paused! Your score is " ++ toString pausedSample.score ++ "!") (1 / 2)
      ∈ (runTick sampleEnv 0 pausedSample).2 :=
  paused_tick sampleEnv 0 pausedSample rfl

/-- C9: on a pause key (`P` or `ESC`), the dispatcher ends with the paused
flag set exactly when the game was unpaused and the skier (after input
handling) is `SKIING`; in particular a paused game always resumes, whatever
the skier's state. -/
theorem pause_key_gating (env : Env) (key : Key) (g : GameState)
    (hk : key = Key.P ∨ key = Key.ESC) :
    ((handleKeyDown env key g).1.paused = true ↔
      (g.paused = false ∧
        (env.skierHandleInput key g.skier).1.state = SkierState.SKIING)) := by
  simp only [handleKeyDown, if_pos hk, pause, resume]
  cases hp : g.paused <;>
    by_cases hs : (env.skierHandleInput key g.skier).1.state = SkierState.SKIING <;>
    simp [hp, hs]

/-- C9 witness: pressing `P` on the concrete unpaused skiing state pauses
the game. -/
theorem pause_key_gating_witness :
    ((handleKeyDown sampleEnv Key.P sampleState).1.paused = true ↔
      (sampleState.paused = false ∧
        (sampleEnv.skierHandleInput Key.P sampleState.skier).1.state =
          SkierState.SKIING)) :=
  pause_key_gating sampleEnv Key.P sampleState (Or.inl rfl)

/-- C1: the dispatcher never calls `preventDefault`, even when the skier
consumed the key — the `switch` falls through into its `default` clause on
every path (missing `break`), resetting `handled` to `false` before the
`if (handled)` test, so the consumed flag returned by `handleInput` is dead.
This contradicts the claimed behavior that `preventDefault` is called
exactly when `handleInput` returned `true`. -/
theorem handleKeyDown_never_prevents (env : Env) (key : Key) (g : GameState)
    (h : (env.skierHandleInput key g.skier).2 = true) :
    (handleKeyDown env key g).2 = false := rfl

/-- C1 witness: in the concrete environment the skier consumes the down key,
yet the dispatcher does not call `preventDefault`. -/
theorem handleKeyDown_never_prevents_witness :
    (sampleEnv.skierHandleInput Key.DOWN sampleState.skier).2 = true ∧
    (handleKeyDown sampleEnv Key.DOWN sampleState).2 = false :=
  ⟨rfl, handleKeyDown_never_prevents sampleEnv Key.DOWN sampleState rfl⟩

/-- C4: an unpaused tick on a `SKIING` skier at the origin facing `DOWN`,
with no obstacle collision firing, adds exactly 1 to the score and advances
the skier's position by exactly the `DOWN` velocity vector (and the skier
keeps skiing). -/
theorem skiing_tick (env : Env) (now : ℚ) (g : GameState)
    (hp : g.paused = false) (hs : g.skier.state = SkierState.SKIING)
    (hd : g.skier.direction = Direction.DOWN)
    (hpos : g.skier.position = { x := 0, y := 0 })
    (hcol : ∀ sk obs, env.skierCollide sk obs = false) :
    (updateGameWindow env now g).score = g.score + 1 ∧
    (updateGameWindow env now g).skier.position =
      { x := (env.vel Direction.DOWN).1, y := (env.vel Direction.DOWN).2 } ∧
    (updateGameWindow env now g).skier.state = SkierState.SKIING := by
  simp [updateGameWindow, hp, updateGameScore, hs, calculateGameWindow,
    Skier.update, hd, hpos, hcol]

/-- C4 witness: one tick on the concrete skiing state, whose environment
never reports a collision. -/
theorem skiing_tick_witness :
    (updateGameWindow sampleEnv 7 sampleState).score = sampleState.score + 1 ∧
    (updateGameWindow sampleEnv 7 sampleState).skier.position =
      { x := (sampleEnv.vel Direction.DOWN).1,
        y := (sampleEnv.vel Direction.DOWN).2 } ∧
    (updateGameWindow sampleEnv 7 sampleState).skier.state = SkierState.SKIING :=
  skiing_tick sampleEnv 7 sampleState rfl rfl rfl rfl (fun _ _ => rfl)

/-- Helper: a successful pass of the selection loop returns an index below
the starting index plus the number of remaining weights. -/
theorem selectLoop_some_lt (ws : List ℚ) :
    ∀ r i j, selectLoop r ws i = some j → j < i + ws.length := by
  induction ws with
  | nil =>
    intro r i j h
    simp [selectLoop] at h
  | cons w ws ih =>
    intro r i j h
    simp only [selectLoop] at h
    split_ifs at h with hc
    · simp only [Option.some.injEq] at h
      simp only [List.length_cons]
      omega
    · have := ih (r - w) (i + 1) j h
      simp only [List.length_cons]
      omega

/-- Helper: `getRandomObstacleType` always returns an index below the catalog
length, whether the loop matched or the fallback fired. -/
theorem getRandomObstacleType_lt (r : ℚ) :
    getRandomObstacleType r < OBSTACLE_TYPES.length := by
  unfold getRandomObstacleType
  cases h : selectLoop r (OBSTACLE_TYPES.map (fun t => t.weight)) 0 with
  | none => simp [OBSTACLE_TYPES]
  | some j =>
    have := selectLoop_some_lt _ r 0 j h
    simpa [OBSTACLE_TYPES] using this

/-- C2: for a draw value `r` with `0 ≤ r < totalWeight` (= 100),
`getRandomObstacleType` returns the index of the first catalog entry whose
weight interval `[sum of weights before i, sum of weights before i + weight i)`
contains `r`; and whenever the loop finds no match, the function returns the
last catalog index. -/
theorem getRandomObstacleType_weighted :
    (∀ r : ℚ, 0 ≤ r → r < totalWeight →
      ∀ i : Nat, i < OBSTACLE_TYPES.length →
        ((OBSTACLE_TYPES.map (fun t => t.weight)).take i).sum ≤ r →
        r < ((OBSTACLE_TYPES.map (fun t => t.weight)).take i).sum +
          (OBSTACLE_TYPES.map (fun t => t.weight)).getD i 0 →
        getRandomObstacleType r = i) ∧
    (∀ r : ℚ, selectLoop r (OBSTACLE_TYPES.map (fun t => t.weight)) 0 = none →
      getRandomObstacleType r = OBSTACLE_TYPES.length - 1) := by
  constructor
  · intro r h0 h1 i hi hlo hhi
    have hlen : OBSTACLE_TYPES.length = 5 := rfl
    rw [hlen] at hi
    have hmap : OBSTACLE_TYPES.map (fun t => t.weight) = [(30:ℚ), 30, 20, 10, 10] := rfl
    rw [hmap] at hlo hhi
    interval_cases i <;>
      norm_num [List.take, List.sum_cons, List.getD] at hlo hhi <;>
      simp only [getRandomObstacleType, hmap, selectLoop] <;>
      split_ifs <;> first | rfl | (exfalso; linarith)
  · intro r h
    simp only [getRandomObstacleType, h]

/-- C2 witness: the draw value 45 lies in the second entry's interval
`[30, 60)` and selects index 1. -/
theorem getRandomObstacleType_weighted_witness :
    getRandomObstacleType 45 = 1 :=
  getRandomObstacleType_weighted.1 45 (by norm_num)
    (by norm_num [totalWeight, OBSTACLE_TYPES])
    1 (by norm_num [OBSTACLE_TYPES])
    (by norm_num [OBSTACLE_TYPES, List.take])
    (by norm_num [OBSTACLE_TYPES, List.take, List.getD])

/-- C8: for every draw value in `[0, totalWeight)` the chosen type index is
in bounds for the catalog, so the constructor's lookup succeeds and the
constructed obstacle's image name is one of the five catalog image names. -/
theorem mkObstacle_imageName_in_catalog (r : ℚ)
    (h0 : 0 ≤ r) (h1 : r < totalWeight) :
    getRandomObstacleType r ≤ OBSTACLE_TYPES.length - 1 ∧
    ∀ x y : ℚ, ∃ o : Obstacle, mkObstacle x y r = some o ∧
      o.imageName ∈ [IMAGE_NAMES.TREE, IMAGE_NAMES.TREE_CLUSTER,
        IMAGE_NAMES.ROCK1, IMAGE_NAMES.ROCK2, IMAGE_NAMES.JUMP_RAMP] := by
  have hlt := getRandomObstacleType_lt r
  constructor
  · have hlen : OBSTACLE_TYPES.length = 5 := rfl
    omega
  · intro x y
    have hget : OBSTACLE_TYPES[getRandomObstacleType r]? =
        some (OBSTACLE_TYPES.get ⟨getRandomObstacleType r, hlt⟩) :=
      List.getElem?_eq_getElem hlt
    refine ⟨_, by rw [mkObstacle, hget]; rfl, ?_⟩
    have hmem : OBSTACLE_TYPES.get ⟨getRandomObstacleType r, hlt⟩ ∈ OBSTACLE_TYPES :=
      OBSTACLE_TYPES.get_mem _ _
    have hmap :
        (OBSTACLE_TYPES.get ⟨getRandomObstacleType r, hlt⟩).imageName ∈
          OBSTACLE_TYPES.map (fun t => t.imageName) :=
      List.mem_map_of_mem (fun t => t.imageName) hmem
    simpa [OBSTACLE_TYPES] using hmap

/-- C8 witness: the draw value 95 selects the last entry and constructs an
obstacle whose image name is in the catalog. -/
theorem mkObstacle_imageName_in_catalog_witness :
    getRandomObstacleType 95 ≤ OBSTACLE_TYPES.length - 1 ∧
    ∀ x y : ℚ, ∃ o : Obstacle, mkObstacle x y 95 = some o ∧
      o.imageName ∈ [IMAGE_NAMES.TREE, IMAGE_NAMES.TREE_CLUSTER,
        IMAGE_NAMES.ROCK1, IMAGE_NAMES.ROCK2, IMAGE_NAMES.JUMP_RAMP] :=
  mkObstacle_imageName_in_catalog 95 (by norm_num)
    (by norm_num [totalWeight, OBSTACLE_TYPES])

end SkiGame
